/-
Verification of the preprint-alert-agent pipeline and site builder.

This file gives a shallow embedding of the core of the repository
(`src/preprint_alert/agents.py`, `config.py`, `cli.py`,
`site_builder.py`) and proves properties of the three-stage analysis
pipeline (selection, per-paper analysis, synthesis) and of the static
site generation logic.

Modelling conventions:
- Python strings are Lean `String` (a list of characters); `s[:n]` is
  `strTake s n`, `"sep".join(l)` is `pyJoin sep l`.
- The LLM collaborator is opaque: each call site receives the outcome
  of its single `ainvoke` call as an `Except Err String` value (the
  prompt text fed to the LLM is elided, since it only influences the
  opaque collaborator).  Each stage function additionally returns the
  number of LLM invocations it performed.
- The process environment is a function `Env := String → Option String`
  (`os.getenv`).
- `asyncio.gather(..., return_exceptions=True)` returns the per-task
  outcomes in input order; a task is modelled as a value of type
  `Except Err PaperAnalysis` (an `.error` is an exception that escaped
  the task).
-/
import Mathlib

namespace PreprintAlert

/-- Decidable equality of `Except` values, for evaluating the embedding
on concrete inputs. -/
instance {ε α : Type} [DecidableEq ε] [DecidableEq α] : DecidableEq (Except ε α) := fun a b =>
  match a, b with
  | .error e1, .error e2 =>
    if h : e1 = e2 then isTrue (by rw [h]) else isFalse (by simp [h])
  | .error _, .ok _ => isFalse (by simp)
  | .ok _, .error _ => isFalse (by simp)
  | .ok v1, .ok v2 =>
    if h : v1 = v2 then isTrue (by rw [h]) else isFalse (by simp [h])

/-- Exception values are identified by their message. -/
abbrev Err := String

/-- The process environment, as read by `os.getenv`. -/
abbrev Env := String → Option String

/-- Python `s[:n]`: the first `n` characters of `s`. -/
def strTake (s : String) (n : Nat) : String := String.mk (s.data.take n)

/-- Python `sep.join(l)`. -/
def pyJoin (sep : String) : List String → String
  | [] => ""
  | [x] => x
  | x :: y :: xs => x ++ sep ++ pyJoin sep (y :: xs)

/-- Scanning helper for `countOccs`: `skip` characters remain to be
consumed from the previous match before a new match may start. -/
def countOccsAux (pat : List Char) (skip : Nat) : List Char → Nat
  | [] => 0
  | c :: rest =>
    match skip with
    | n + 1 => countOccsAux pat n rest
    | 0 =>
      if pat.isPrefixOf (c :: rest) then 1 + countOccsAux pat (pat.length - 1) rest
      else countOccsAux pat 0 rest

/-- Number of non-overlapping occurrences of `pat` in `cs`
(Python `len(re.findall(...))` for a literal pattern). -/
def countOccs (pat cs : List Char) : Nat := countOccsAux pat 0 cs

/-- Python `pat in s` (substring containment). -/
def containsSub (pat : List Char) (cs : List Char) : Bool := countOccs pat cs != 0

/-- Python `s.strip()`: remove leading and trailing whitespace. -/
def pyStrip (s : String) : String :=
  String.mk (((s.data.dropWhile Char.isWhitespace).reverse.dropWhile Char.isWhitespace).reverse)

/-- Python `s.split("\n")`: split on every newline, keeping empty fields. -/
def splitLinesAux : List Char → List Char → List String
  | [], acc => [String.mk acc.reverse]
  | '\n' :: rest, acc => String.mk acc.reverse :: splitLinesAux rest []
  | c :: rest, acc => splitLinesAux rest (c :: acc)

/-- Python `s.split("\n")`. -/
def splitLines (s : String) : List String := splitLinesAux s.data []

/-- Python `s.startswith(pat)`. -/
def startsWithLit (s pat : String) : Bool := pat.data.isPrefixOf s.data

/-- Python `s.lower()` (ASCII case folding). -/
def lowerStr (s : String) : String := String.mk (s.data.map Char.toLower)

/-- Containment of `needle` in `hay` as a string decomposition. -/
def strContains (needle hay : String) : Prop := ∃ s t, hay = s ++ needle ++ t

/- ## Data model (`arxiv_fetcher.Paper`, `agents.PaperAnalysis`, `agents.AgentState`) -/

/-- A paper from arXiv (`arxiv_fetcher.Paper`). -/
structure Paper where
  arxiv_id : String
  title : String
  authors : List String
  abstract : String
  link : String
deriving Repr, DecidableEq

/-- Analysis result for a single paper (`agents.PaperAnalysis`). -/
structure PaperAnalysis where
  paper : Paper
  summary : String
  methodology_insights : String
  why_interesting : String
deriving Repr, DecidableEq

/-- State passed through the LangGraph workflow (`agents.AgentState`). -/
structure AgentState where
  papers : List Paper
  interesting_paper_ids : List String
  analyses : List PaperAnalysis
  final_report : String
deriving Repr, DecidableEq

/-- Create initial empty state (`agents.make_initial_state`). -/
def make_initial_state : AgentState :=
  { papers := [], interesting_paper_ids := [], analyses := [], final_report := "" }

/- ## Configuration (`config.get_llm`) -/

/-- The configured LLM client (the fields of `ChatOpenAI` that `get_llm` sets). -/
structure LLMConfig where
  api_key : String
  model : String
deriving Repr, DecidableEq

/-- Get the configured LLM via OpenRouter (`config.get_llm`).
Raises `ValueError` when `OPENROUTER_API_KEY` is unset or empty
(Python `if not api_key`). -/
def get_llm (env : Env) : Except Err LLMConfig :=
  match env "OPENROUTER_API_KEY" with
  | none => .error "OPENROUTER_API_KEY environment variable is required"
  | some key =>
    if key = "" then .error "OPENROUTER_API_KEY environment variable is required"
    else .ok { api_key := key, model := (env "OPENROUTER_MODEL").getD "anthropic/claude-3.5-sonnet" }

/- ## Selection stage (`agents.coordinator_node`) -/

/-- Coordinator agent that picks interesting papers (`agents.coordinator_node`).
`fetched` is the value returned by the `fetch_papers` collaborator and
`llmResp` the outcome of the single `llm.ainvoke` call.  The returned
`Nat` counts LLM invocations.  A raised exception (from `get_llm`) is
the `.error` case of the result. -/
def coordinator_node (env : Env) (fetched : List Paper) (llmResp : Except Err String)
    (st : AgentState) : Except Err (AgentState × Nat) :=
  if fetched.isEmpty then
    .ok ({ st with papers := [], interesting_paper_ids := [] }, 0)
  else
    let st1 := { st with papers := fetched }
    match get_llm env with
    | .error e => .error e
    | .ok _ =>
      match llmResp with
      | .error _ => .ok ({ st1 with interesting_paper_ids := [] }, 1)
      | .ok content =>
        let parsed := (splitLines (pyStrip content)).filterMap fun line =>
          let s := pyStrip line
          if s != "" && !(startsWithLit s "#") then some s else none
        let valid := fetched.map Paper.arxiv_id
        let ids := parsed.filter fun id => valid.contains id
        .ok ({ st1 with interesting_paper_ids := ids }, 1)

/- ## Analysis stage (`agents.analyze_single_paper`, `agents.analyst_node`) -/

/-- Summary recorded when the per-paper LLM call raises. -/
def analysisErrSummary : String := "Analysis unavailable due to an error."

/-- Insight text recorded when the per-paper LLM call raises. -/
def analysisErrInsights : String := "Analysis could not be completed."

/-- Analyze a single paper in detail (`agents.analyze_single_paper`).
`htmlRes` is the outcome of `fetch_paper_html` (`.error` models an
exception escaping the fetch; `.ok none` is the documented
"HTML unavailable" value), `llmResp` the outcome of the `llm.ainvoke`
call.  The HTML text and the derived `content_for_analysis` feed only
the elided LLM prompt.  `get_llm` is called outside the `try` block,
so its failure escapes the task.  The `Nat` counts LLM invocations. -/
def analyze_single_paper (env : Env) (htmlRes : Except Err (Option String))
    (llmResp : Except Err String) (p : Paper) : Except Err PaperAnalysis × Nat :=
  match htmlRes with
  | .error e => (.error e, 0)
  | .ok _ =>
    match get_llm env with
    | .error e => (.error e, 0)
    | .ok _ =>
      match llmResp with
      | .error _ =>
        (.ok { paper := p, summary := analysisErrSummary,
               methodology_insights := analysisErrInsights, why_interesting := "" }, 1)
      | .ok content =>
        (.ok { paper := p, summary := strTake content 500,
               methodology_insights := content, why_interesting := "" }, 1)

/-- Analyze each interesting paper in parallel (`agents.analyst_node`).
`asyncio.gather(..., return_exceptions=True)` yields the task outcomes
in input order; the node keeps the `PaperAnalysis` results and logs the
exceptions.  The `Nat` sums the LLM invocations of the tasks. -/
def analyst_node (env : Env) (htmlRes : Paper → Except Err (Option String))
    (llmResp : Paper → Except Err String) (st : AgentState) : AgentState × Nat :=
  let papers_to_analyze := st.papers.filter fun p => st.interesting_paper_ids.contains p.arxiv_id
  if papers_to_analyze.isEmpty then
    ({ st with analyses := [] }, 0)
  else
    let results := papers_to_analyze.map fun p => analyze_single_paper env (htmlRes p) (llmResp p) p
    let analyses := results.filterMap fun r => r.1.toOption
    ({ st with analyses := analyses }, (results.map fun r => r.2).sum)

/- ## Synthesis stage (`agents.report_writer_node`) -/

/-- The fixed placeholder article for a run with zero analyses. -/
def noPapersReport : String := "# No interesting papers found today\n\nCheck back tomorrow!"

/-- The fixed heading of the deterministic fallback article. -/
def reportFallbackHeading : String := "# Today\u0027s Papers\n\n"

/-- The fixed explanatory note of the deterministic fallback article. -/
def reportFallbackNote : String :=
  "Automatic report generation encountered an error. Here are the papers that were identified as interesting:\n\n"

/-- One markdown list item `- [title](link)` of the fallback article. -/
def mdListItem (a : PaperAnalysis) : String :=
  "- [" ++ a.paper.title ++ "](" ++ a.paper.link ++ ")"

/-- The deterministic fallback article built when the synthesis LLM call fails. -/
def reportFallback (analyses : List PaperAnalysis) : String :=
  reportFallbackHeading ++ reportFallbackNote ++ pyJoin "\n" (analyses.map mdListItem)

/-- Write the final report as an engaging article (`agents.report_writer_node`).
`llmResp` is the outcome of the single `llm.ainvoke` call; `get_llm` is
called outside the `try` block, so its failure escapes the node.  The
`Nat` counts LLM invocations. -/
def report_writer_node (env : Env) (llmResp : Except Err String)
    (st : AgentState) : Except Err (AgentState × Nat) :=
  if st.analyses.isEmpty then
    .ok ({ st with final_report := noPapersReport }, 0)
  else
    match get_llm env with
    | .error e => .error e
    | .ok _ =>
      match llmResp with
      | .ok content => .ok ({ st with final_report := content }, 1)
      | .error _ => .ok ({ st with final_report := reportFallback st.analyses }, 1)

/- ## Orchestrator (`agents.run_agent`, `cli.main`) -/

/-- Run the full agent pipeline and return the report (`agents.run_agent`):
the LangGraph workflow `coordinator → analyst → report_writer` over the
initial empty state.  An `.error` is an exception escaping a node. -/
def run_agent (env : Env) (fetched : List Paper) (coordResp : Except Err String)
    (htmlRes : Paper → Except Err (Option String)) (llmResp : Paper → Except Err String)
    (writerResp : Except Err String) : Except Err String :=
  match coordinator_node env fetched coordResp make_initial_state with
  | .error e => .error e
  | .ok (st1, _) =>
    let st2 := (analyst_node env htmlRes llmResp st1).1
    match report_writer_node env writerResp st2 with
    | .error e => .error e
    | .ok (st3, _) => .ok st3.final_report

/-- CLI entrypoint (`cli.main`): runs the pipeline and returns the process
exit code — `1` when an exception escapes (`except Exception: sys.exit(1)`),
`0` otherwise.  File writing and site building are elided I/O. -/
def cli_main (env : Env) (fetched : List Paper) (coordResp : Except Err String)
    (htmlRes : Paper → Except Err (Option String)) (llmResp : Paper → Except Err String)
    (writerResp : Except Err String) : Nat :=
  match run_agent env fetched coordResp htmlRes llmResp writerResp with
  | .error _ => 1
  | .ok _ => 0

/- ## Site builder (`site_builder._parse_report`, `site_builder.build_site`) -/

/-- Value of an ASCII digit character. -/
def digitVal (c : Char) : Nat := c.toNat - 48

/-- Gregorian leap year, as validated by `datetime.strptime`. -/
def isLeap (y : Nat) : Bool := (y % 4 == 0 && y % 100 != 0) || y % 400 == 0

/-- Days in a month, as validated by `datetime.strptime`. -/
def daysInMonth (y m : Nat) : Nat :=
  if m == 2 then (if isLeap y then 29 else 28)
  else if m == 4 || m == 6 || m == 9 || m == 11 then 30
  else 31

/-- Long month name, as produced by `strftime("%B")`. -/
def monthName : Nat → String
  | 1 => "January"
  | 2 => "February"
  | 3 => "March"
  | 4 => "April"
  | 5 => "May"
  | 6 => "June"
  | 7 => "July"
  | 8 => "August"
  | 9 => "September"
  | 10 => "October"
  | 11 => "November"
  | 12 => "December"
  | _ => ""

/-- Zero-padded two-digit day, as produced by `strftime("%d")`. -/
def pad2 (n : Nat) : String := if n < 10 then "0" ++ toString n else toString n

/-- Model of `datetime.strptime(s, "%Y-%m-%d")`: a ten-character
`YYYY-MM-DD` string with a valid calendar date (year at least 1,
month 1..12, day within the month). -/
def parseYMD (s : String) : Option (Nat × Nat × Nat) :=
  match s.data with
  | [y1, y2, y3, y4, h1, m1, m2, h2, d1, d2] =>
    if y1.isDigit && y2.isDigit && y3.isDigit && y4.isDigit && h1 == '-' &&
        m1.isDigit && m2.isDigit && h2 == '-' && d1.isDigit && d2.isDigit then
      let y := 1000 * digitVal y1 + 100 * digitVal y2 + 10 * digitVal y3 + digitVal y4
      let m := 10 * digitVal m1 + digitVal m2
      let d := 10 * digitVal d1 + digitVal d2
      if 1 ≤ y && 1 ≤ m && m ≤ 12 && 1 ≤ d && d ≤ daysInMonth y m then some (y, m, d)
      else none
    else none
  | _ => none

/-- Format the date string the way `_parse_report` does:
`strftime("%B %d, %Y")` on success, the raw string on `ValueError`. -/
def formatDateDisplay (ds : String) : String :=
  match parseYMD ds with
  | some (y, m, d) => monthName m ++ " " ++ pad2 d ++ ", " ++ toString y
  | none => ds

/-- Match of the pattern `\d{4}-\d{2}-\d{2}` at the head of `cs`. -/
def dateShapeAt : List Char → Option (List Char)
  | a :: b :: c :: d :: e :: f :: g :: h :: i :: j :: _ =>
    if a.isDigit && b.isDigit && c.isDigit && d.isDigit && e == '-' &&
        f.isDigit && g.isDigit && h == '-' && i.isDigit && j.isDigit then
      some [a, b, c, d, e, f, g, h, i, j]
    else none
  | _ => none

/-- First match of `re.search(r"(\d{4}-\d{2}-\d{2})", ...)`: the leftmost
position where the date shape matches. -/
def findDate : List Char → Option (List Char)
  | [] => none
  | c :: rest =>
    match dateShapeAt (c :: rest) with
    | some m => some m
    | none => findDate rest

/-- Captured group of `re.search(r"^#+\s+(.+)$", text, re.MULTILINE)`
restricted to one line: one or more `#`, then at least one whitespace
character, then the rest of the line (which must be non-empty; when the
line ends in whitespace only and that run has length at least two, the
regex engine backtracks `\s+` by one character and the group is the
final whitespace character).  The exotic whole-text case where `\s+`
spans a newline (a line holding only `#` markers and whitespace,
followed by a non-empty line) is not modelled. -/
def headingContent (line : String) : Option String :=
  let cs := line.data
  let hashes := cs.takeWhile fun c => c == '#'
  if hashes.isEmpty then none
  else
    let afterHash := cs.drop hashes.length
    let ws := afterHash.takeWhile fun c => c.isWhitespace
    if ws.isEmpty then none
    else
      let tail := afterHash.drop ws.length
      if !tail.isEmpty then some (String.mk tail)
      else if ws.length ≥ 2 then some (String.mk (ws.drop (ws.length - 1)))
      else none

/-- Captured group of `re.search(r"^\*\*(.+?)\*\*$", text, re.MULTILINE)`
restricted to one line: the line is exactly `**`, a non-empty body, `**`. -/
def boldContent (line : String) : Option String :=
  let cs := line.data
  if cs.length ≥ 5 && cs.take 2 == ['*', '*'] && cs.drop (cs.length - 2) == ['*', '*'] then
    some (String.mk ((cs.drop 2).take (cs.length - 4)))
  else none

/-- The excerpt loop's test: the stripped line is non-blank, is not a
heading or bold line, and is not a known LLM preamble phrase. -/
def excerptQualifies (line : String) : Bool :=
  let s := pyStrip line
  s != "" && !(startsWithLit s "#") && !(startsWithLit s "**") &&
    !(startsWithLit (lowerStr s) "here\u0027s my") && !(startsWithLit (lowerStr s) "here is my")

/-- Python `pathlib.Path.stem`: the file name with its last suffix removed. -/
def pyStem (name : String) : String :=
  match name.data.reverse.dropWhile fun c => c != '.' with
  | [] => name
  | _ :: rest => String.mk rest.reverse

/-- Metadata and content parsed from one markdown report
(the dict built by `site_builder._parse_report`). -/
structure ParsedReport where
  date_str : String
  date_display : String
  title : String
  excerpt : String
  html : String
  slug : String
  paper_count : Nat
  is_empty : Bool
deriving Repr, DecidableEq

/-- Parse a markdown report file into metadata and content
(`site_builder._parse_report`).  `md` is the `markdown.markdown`
collaborator, `name` the file name, `text` the file content. -/
def parse_report (md : String → String) (name : String) (text : String) : ParsedReport :=
  let date_str := match findDate name.data with
    | some m => String.mk m
    | none => "Unknown"
  let date_display := formatDateDisplay date_str
  let lines := splitLines text
  let title := match lines.findSome? headingContent with
    | some t => t
    | none =>
      match lines.findSome? boldContent with
      | some t => t
      | none => "Report " ++ date_str
  let excerpt := match lines.find? excerptQualifies with
    | none => ""
    | some line =>
      let s := pyStrip line
      let e := strTake s 200
      if s.length > 200 then e ++ "..." else e
  { date_str := date_str, date_display := date_display, title := title, excerpt := excerpt,
    html := md text, slug := pyStem name,
    paper_count := countOccs "arxiv.org/abs/".data text.data,
    is_empty := containsSub "no interesting papers".data (lowerStr title).data }

/-- Shape of a well-formed `YYYY-MM-DD` date string (four digits, dash,
two digits, dash, two digits and nothing else). -/
def isDateLike (s : String) : Bool :=
  match s.data with
  | [y1, y2, y3, y4, c1, m1, m2, c2, d1, d2] =>
    y1.isDigit && y2.isDigit && y3.isDigit && y4.isDigit && c1 == '-' &&
      m1.isDigit && m2.isDigit && c2 == '-' && d1.isDigit && d2.isDigit
  | _ => false

/-- Whether a file name matches the glob `report-*.md`. -/
def matchesReportGlob (n : String) : Bool :=
  "report-".data.isPrefixOf n.data && ".md".data.isSuffixOf n.data

/-- One generated article page: its slug, the slugs its older/newer
navigation links point to (when present), and the navigation HTML
fragment assembled by `build_site`.  The surrounding page shell
(`_page_shell`) repeats these links verbatim and is elided. -/
structure Page where
  slug : String
  nav_older : Option String
  nav_newer : Option String
  nav_html : String
deriving Repr, DecidableEq

/-- The `nav-older` anchor appended when an older report exists. -/
def navAnchorOlder (r : ParsedReport) : String :=
  "<a class=\"nav-older\" href=\"" ++ r.slug ++ ".html\">&larr; " ++ strTake r.title 50 ++ "</a>"

/-- The `nav-newer` anchor appended when a newer report exists. -/
def navAnchorNewer (r : ParsedReport) : String :=
  "<a class=\"nav-newer\" href=\"" ++ r.slug ++ ".html\">" ++ strTake r.title 50 ++ " &rarr;</a>"

/-- The `article-nav` fragment: older anchor first, then newer anchor,
exactly as `build_site` concatenates them. -/
def navHtmlOf (older newer : Option ParsedReport) : String :=
  "<div class=\"article-nav\">"
    ++ (match older with | some o => navAnchorOlder o | none => "")
    ++ (match newer with | some n => navAnchorNewer n | none => "")
    ++ "</div>"

/-- Assemble one page from a report and its sort neighbours. -/
def mkPage (newer : Option ParsedReport) (r : ParsedReport) (older : Option ParsedReport) : Page :=
  { slug := r.slug, nav_older := older.map ParsedReport.slug,
    nav_newer := newer.map ParsedReport.slug, nav_html := navHtmlOf older newer }

/-- The per-report page loop of `build_site` over the newest-first list:
at index `i`, the older neighbour is entry `i+1` and the newer neighbour
entry `i-1`, exactly when those indices exist. -/
def buildPages (newer : Option ParsedReport) : List ParsedReport → List Page
  | [] => []
  | r :: rest => mkPage newer r rest.head? :: buildPages (some r) rest

/-- Descending order on file names: `a` sorts no later than `b` when `a`
is not lexicographically smaller (Python compares strings by code
points, which is `List.lt` on the character data). -/
def nameGe (a b : String) : Prop := ¬ a.data < b.data

instance : DecidableRel nameGe := fun a b =>
  inferInstanceAs (Decidable ¬ (a.data < b.data))

/-- Build the full static site from markdown reports
(`site_builder.build_site`): glob `report-*.md` over the directory
listing, sort the names descending (Python `sorted(..., reverse=True)`
modelled by insertion sort, which agrees with it on distinct keys),
parse each report, and assemble the cross-linked pages newest first.
`content` maps a file name to its text; the index page is elided. -/
def build_site (md : String → String) (dirListing : List String)
    (content : String → String) : List Page :=
  let names := dirListing.filter matchesReportGlob
  let sortedNames := List.insertionSort nameGe names
  let reports := sortedNames.map fun n => parse_report md n (content n)
  buildPages none reports


/- ## Concrete example inputs used by witnesses and counterexamples -/

/-- Environment holding the required credential. -/
def exEnv : Env := fun k => if k == "OPENROUTER_API_KEY" then some "sk-test" else none

/-- Environment with no variables set. -/
def exEnvNone : Env := fun _ => none

/-- The LLM configuration `get_llm` builds from `exEnv`. -/
def exCfg : LLMConfig := { api_key := "sk-test", model := "anthropic/claude-3.5-sonnet" }

/-- A sample paper whose analysis succeeds. -/
def exPaperA : Paper :=
  { arxiv_id := "2401.00001", title := "Good Paper", authors := ["Author A"],
    abstract := "An abstract.", link := "https://arxiv.org/abs/2401.00001" }

/-- A sample paper whose analysis fails. -/
def exPaperB : Paper :=
  { arxiv_id := "2401.00002", title := "Bad Paper", authors := ["Author A"],
    abstract := "An abstract.", link := "https://arxiv.org/abs/2401.00002" }

/-- A pipeline state with both sample papers marked interesting. -/
def exStateAB : AgentState :=
  { papers := [exPaperA, exPaperB], interesting_paper_ids := ["2401.00001", "2401.00002"],
    analyses := [], final_report := "" }

/-- A pipeline state where the interesting-id list holds duplicates. -/
def exStateDup : AgentState :=
  { papers := [exPaperA, exPaperB],
    interesting_paper_ids := ["2401.00001", "2401.00001", "2401.00002", "2401.00001"],
    analyses := [], final_report := "" }

/-- Sample analysis of `exPaperA`. -/
def exAnalysisA : PaperAnalysis :=
  { paper := exPaperA, summary := "s", methodology_insights := "m", why_interesting := "" }

/-- Sample analysis of `exPaperB`. -/
def exAnalysisB : PaperAnalysis :=
  { paper := exPaperB, summary := "s", methodology_insights := "m", why_interesting := "" }

/-- HTML fetch outcome: every fetch returns "unavailable". -/
def exHtmlOk : Paper → Except Err (Option String) := fun _ => .ok none

/-- HTML fetch outcome: the fetch task for `exPaperB` raises. -/
def exHtmlFailB : Paper → Except Err (Option String) :=
  fun p => if p.arxiv_id == "2401.00002" then .error "boom" else .ok none

/-- Per-paper LLM outcome: every call succeeds. -/
def exLlmOk : Paper → Except Err String := fun _ => .ok "Insights"

/-- Per-paper LLM outcome: the call for `exPaperB` raises. -/
def exLlmFailB : Paper → Except Err String :=
  fun p => if p.arxiv_id == "2401.00002" then .error "LLM timeout" else .ok "Insights"

/-- Identity stand-in for the `markdown.markdown` collaborator. -/
def exMd : String → String := fun s => s

/-- A 300-character content line. -/
def exLongLine : String := String.mk (List.replicate 300 'x')

/-- A report whose first content line has 300 characters. -/
def exLongText : String := "# Title

" ++ exLongLine

/-- A report that opens with an LLM preamble line before its heading. -/
def exPreambleText : String := "Here's my engaging article:

# Actual Title

Content."

/- ## General helper lemmas -/

theorem strData_append (a b : String) : (a ++ b).data = a.data ++ b.data := rfl

theorem strEq_iff_data {s t : String} : s = t ↔ s.data = t.data :=
  ⟨congrArg String.data, String.ext⟩

theorem pyJoin_mem (sep x : String) (l : List String) (hx : x ∈ l) :
    ∃ s t, pyJoin sep l = s ++ x ++ t := by
  induction l with
  | nil => cases hx
  | cons y ys ih =>
    rcases List.mem_cons.1 hx with hxy | hmem
    · subst hxy
      cases ys with
      | nil => exact ⟨"", "", by simp [pyJoin]⟩
      | cons z zs =>
        refine ⟨"", sep ++ pyJoin sep (z :: zs), ?_⟩
        simp [pyJoin, String.append_assoc]
    · cases ys with
      | nil => cases hmem
      | cons z zs =>
        obtain ⟨s, t, hst⟩ := ih hmem
        refine ⟨y ++ sep ++ s, t, ?_⟩
        simp [pyJoin, hst, String.append_assoc]

theorem strTake_length_le (s : String) (n : Nat) : (strTake s n).length ≤ n := by
  show (s.data.take n).length ≤ n
  simp

theorem strTake_append_drop (s : String) (n : Nat) :
    strTake s n ++ String.mk (s.data.drop n) = s := by
  apply String.ext
  show s.data.take n ++ s.data.drop n = s.data
  exact List.take_append_drop n s.data

/- ## Lemmas about the analysis stage -/

theorem analyze_ok_paper (env : Env) (h : Except Err (Option String))
    (l : Except Err String) (p : Paper) (a : PaperAnalysis)
    (hok : (analyze_single_paper env h l p).1 = .ok a) : a.paper = p := by
  unfold analyze_single_paper at hok
  cases h with
  | error e => simp at hok
  | ok oh =>
    cases hg : get_llm env with
    | error e => rw [hg] at hok; simp at hok
    | ok cfg =>
      rw [hg] at hok
      cases l with
      | error e =>
        simp at hok
        rw [← hok]
      | ok c =>
        simp at hok
        rw [← hok]

theorem analyses_map_paper (env : Env) (H : Paper → Except Err (Option String))
    (L : Paper → Except Err String) (l : List Paper) :
    ((l.map fun p => analyze_single_paper env (H p) (L p) p).filterMap
        fun r => r.1.toOption).map PaperAnalysis.paper
      = l.filter fun p => (analyze_single_paper env (H p) (L p) p).1.toOption.isSome := by
  induction l with
  | nil => rfl
  | cons p rest ih =>
    simp only [List.map_cons, List.filterMap_cons, List.filter_cons]
    cases hok : (analyze_single_paper env (H p) (L p) p).1 with
    | error e =>
      simp only [Except.toOption] at ih ⊢
      simpa using ih
    | ok a =>
      have hp := analyze_ok_paper env (H p) (L p) p a hok
      simp only [Except.toOption] at ih ⊢
      simpa [hp] using ih

theorem analyst_node_analyses (env : Env) (H : Paper → Except Err (Option String))
    (L : Paper → Except Err String) (st : AgentState)
    (hne : ¬ (st.papers.filter fun p => st.interesting_paper_ids.contains p.arxiv_id).isEmpty) :
    (analyst_node env H L st).1.analyses
      = ((st.papers.filter fun p => st.interesting_paper_ids.contains p.arxiv_id).map
          fun p => analyze_single_paper env (H p) (L p) p).filterMap fun r => r.1.toOption := by
  simp only [analyst_node, if_neg hne]


/- ## Claim C2 -/

/-- Claim C2: for every LLM response text (any string, including
extraneous, blank, comment-prefixed, or hallucinated lines) and every
non-empty input paper set, the identifier list produced by the
Selection Stage (`coordinator_node`) is a subset of the arXiv
identifiers of the input papers. -/
theorem selection_ids_subset (env : Env) (fetched : List Paper) (llmResp : Except Err String)
    (st stp : AgentState) (n : Nat) (hne : fetched ≠ [])
    (hok : coordinator_node env fetched llmResp st = .ok (stp, n)) :
    stp.interesting_paper_ids ⊆ fetched.map Paper.arxiv_id := by
  have hb : fetched.isEmpty = false := by
    cases fetched with
    | nil => cases hne rfl
    | cons a l => rfl
  unfold coordinator_node at hok
  rw [hb] at hok
  simp only [Bool.false_eq_true, if_false] at hok
  cases hg : get_llm env with
  | error e => rw [hg] at hok; cases hok
  | ok cfg =>
    rw [hg] at hok
    cases llmResp with
    | error e =>
      simp only [Except.ok.injEq, Prod.mk.injEq] at hok
      rw [← hok.1]
      intro x hx
      cases hx
    | ok content =>
      simp only [Except.ok.injEq, Prod.mk.injEq] at hok
      rw [← hok.1]
      intro x hx
      simp only [List.mem_filter] at hx
      simpa using hx.2

/-- Witness for C2: a response holding one valid identifier, a comment
line, a hallucinated identifier and blanks yields a selection that is a
subset of the fetched identifiers. -/
theorem selection_ids_subset_witness :
    ([exPaperA, exPaperB] : List Paper) ≠ []
      ∧ coordinator_node exEnv [exPaperA, exPaperB]
          (.ok "2401.00002\n# comment\nHALLUCINATED\n\n  2401.00001  ") make_initial_state
          = .ok ({ make_initial_state with
                    papers := [exPaperA, exPaperB]
                    interesting_paper_ids := ["2401.00002", "2401.00001"] }, 1)
      ∧ (["2401.00002", "2401.00001"] : List String) ⊆ [exPaperA, exPaperB].map Paper.arxiv_id := by
  refine ⟨by decide, by decide, ?_⟩
  have h := selection_ids_subset exEnv [exPaperA, exPaperB]
    (.ok "2401.00002\n# comment\nHALLUCINATED\n\n  2401.00001  ") make_initial_state
    ({ make_initial_state with
        papers := [exPaperA, exPaperB]
        interesting_paper_ids := ["2401.00002", "2401.00001"] }) 1 (by decide) (by decide)
  simpa using h

/- ## Claim C4 -/

/-- Claim C4: on empty input each stage short-circuits deterministically:
the Selection Stage with zero fetched papers returns an empty
interesting-id set with zero LLM invocations; the Analysis Stage with
zero qualifying papers returns an empty result list with zero LLM
invocations; the Synthesis Stage with zero analyses returns the fixed
placeholder article, which contains the phrase "No interesting papers",
with zero LLM invocations. -/
theorem empty_input_short_circuit :
    (∀ (env : Env) (resp : Except Err String) (st : AgentState),
      coordinator_node env [] resp st = .ok ({ st with papers := [], interesting_paper_ids := [] }, 0))
    ∧ (∀ (env : Env) (H : Paper → Except Err (Option String)) (L : Paper → Except Err String)
        (st : AgentState),
        (st.papers.filter fun p => st.interesting_paper_ids.contains p.arxiv_id) = [] →
        analyst_node env H L st = ({ st with analyses := [] }, 0))
    ∧ (∀ (env : Env) (resp : Except Err String) (st : AgentState),
        st.analyses = [] →
        report_writer_node env resp st = .ok ({ st with final_report := noPapersReport }, 0)
          ∧ strContains "No interesting papers" noPapersReport) := by
  refine ⟨fun env resp st => rfl, fun env H L st hq => ?_, fun env resp st ha => ?_⟩
  · simp only [analyst_node, hq]
    rfl
  · refine ⟨?_, "# ", " found today\n\nCheck back tomorrow!", by decide⟩
    simp only [report_writer_node, ha]
    rfl

/-- Witness for C4: the three short-circuits at concrete inputs. -/
theorem empty_input_short_circuit_witness :
    coordinator_node exEnv [] (.ok "2401.00001") make_initial_state
        = .ok (make_initial_state, 0)
      ∧ (exStateAB.papers.filter fun p =>
          ({ exStateAB with interesting_paper_ids := [] }).interesting_paper_ids.contains p.arxiv_id) = []
      ∧ analyst_node exEnv exHtmlOk exLlmOk { exStateAB with interesting_paper_ids := [] }
          = ({ exStateAB with interesting_paper_ids := [] }, 0)
      ∧ report_writer_node exEnv (.ok "article") make_initial_state
          = .ok ({ make_initial_state with final_report := noPapersReport }, 0) := by
  refine ⟨?_, by decide, ?_, ?_⟩
  · have h := empty_input_short_circuit.1 exEnv (.ok "2401.00001") make_initial_state
    simpa using h
  · have h := (empty_input_short_circuit.2.1 exEnv exHtmlOk exLlmOk
      { exStateAB with interesting_paper_ids := [] }) (by decide)
    simpa using h
  · have h := (empty_input_short_circuit.2.2 exEnv (.ok "article") make_initial_state) rfl
    exact h.1

/- ## Claim C5 (corrected) -/

/-- Counterexample to C5 as stated: when the per-paper LLM call fails,
the produced Analysis Result's summary is the fixed error string, which
is not a prefix of the insight text. -/
theorem summary_front_of_insights_counterexample :
    (analyze_single_paper exEnv (.ok none) (.error "LLM timeout") exPaperA).1
        = .ok { paper := exPaperA, summary := analysisErrSummary,
                methodology_insights := analysisErrInsights, why_interesting := "" }
      ∧ ¬ ∃ t, analysisErrInsights = analysisErrSummary ++ t := by
  refine ⟨by decide, ?_⟩
  rintro ⟨t, ht⟩
  have hlen := congrArg String.length ht
  rw [String.length_append] at hlen
  have h1 : analysisErrInsights.length = 32 := by decide
  have h2 : analysisErrSummary.length = 37 := by decide
  omega

/-- Claim C5, amended: every Analysis Result produced by a per-paper
analysis task has a summary of at most 500 characters; when the LLM
call succeeded the summary is a prefix of the full insight text (its
first 500 characters), while when the LLM call failed the summary is
the fixed error string (and not a prefix of the insight text). -/
theorem summary_front_of_insights (env : Env) (h : Except Err (Option String))
    (l : Except Err String) (p : Paper) (a : PaperAnalysis)
    (hok : (analyze_single_paper env h l p).1 = .ok a) :
    a.summary.length ≤ 500
      ∧ (∀ c, l = .ok c → ∃ t, a.methodology_insights = a.summary ++ t)
      ∧ (∀ e, l = .error e → a.summary = analysisErrSummary) := by
  unfold analyze_single_paper at hok
  cases h with
  | error e => cases hok
  | ok oh =>
    cases hg : get_llm env with
    | error e => rw [hg] at hok; cases hok
    | ok cfg =>
      rw [hg] at hok
      cases l with
      | error e =>
        simp only [Except.ok.injEq] at hok
        refine ⟨?_, ?_, ?_⟩
        · rw [← hok]
          show analysisErrSummary.length ≤ 500
          decide
        · intro c hc
          cases hc
        · intro e2 h2
          rw [← hok]
      | ok c =>
        simp only [Except.ok.injEq] at hok
        refine ⟨?_, ?_, ?_⟩
        · rw [← hok]
          show (strTake c 500).length ≤ 500
          exact strTake_length_le c 500
        · intro c2 hc2
          injection hc2 with hcc
          subst hcc
          rw [← hok]
          exact ⟨String.mk (c.data.drop 500), (strTake_append_drop c 500).symm⟩
        · intro e he
          cases he

/-- Witness for C5 (amended): a successful call with a short response
and the failing call both bound the summary; the successful summary is
a prefix of the insights. -/
theorem summary_front_of_insights_witness :
    ((analyze_single_paper exEnv (.ok none) (.ok "Insights") exPaperA).1
        = .ok { paper := exPaperA, summary := "Insights",
                methodology_insights := "Insights", why_interesting := "" })
      ∧ ("Insights" : String).length ≤ 500
      ∧ (∃ t, ("Insights" : String) = "Insights" ++ t) := by
  refine ⟨by decide, ?_, ?_⟩
  · have h := summary_front_of_insights exEnv (.ok none) (.ok "Insights") exPaperA
      { paper := exPaperA, summary := "Insights",
        methodology_insights := "Insights", why_interesting := "" } (by decide)
    simpa using h.1
  · have h := summary_front_of_insights exEnv (.ok none) (.ok "Insights") exPaperA
      { paper := exPaperA, summary := "Insights",
        methodology_insights := "Insights", why_interesting := "" } (by decide)
    simpa using h.2.1 "Insights" rfl


/- ## Claim C3 -/

/-- Claim C3: for every non-empty list of Analysis Results, if the single
Synthesis LLM call fails, the Synthesis Stage (`report_writer_node`)
still sets a non-empty final article that begins with the fixed heading,
contains the fixed explanatory failure note, and contains one markdown
link `[title](link)` for each Analysis Result in the input list. -/
theorem synthesis_fallback (env : Env) (cfg : LLMConfig) (e : Err) (st : AgentState)
    (hcfg : get_llm env = .ok cfg) (hne : st.analyses ≠ []) :
    report_writer_node env (.error e) st
        = .ok ({ st with final_report := reportFallback st.analyses }, 1)
      ∧ reportFallback st.analyses ≠ ""
      ∧ (∃ t, reportFallback st.analyses = reportFallbackHeading ++ t)
      ∧ strContains reportFallbackNote (reportFallback st.analyses)
      ∧ ∀ a ∈ st.analyses,
          strContains ("[" ++ a.paper.title ++ "](" ++ a.paper.link ++ ")")
            (reportFallback st.analyses) := by
  have hb : st.analyses.isEmpty = false := by
    cases hA : st.analyses with
    | nil => exact absurd hA hne
    | cons x xs => rfl
  refine ⟨?_, ?_, ?_, ?_, ?_⟩
  · simp only [report_writer_node, hb, Bool.false_eq_true, if_false, hcfg]
  · intro hempty
    have hlen := congrArg String.length hempty
    rw [reportFallback, String.length_append, String.length_append] at hlen
    have hh : reportFallbackHeading.length = 18 := by decide
    have hzero : ("" : String).length = 0 := by decide
    rw [hh, hzero] at hlen
    omega
  · exact ⟨reportFallbackNote ++ pyJoin "\n" (st.analyses.map mdListItem),
      by simp [reportFallback, String.append_assoc]⟩
  · exact ⟨reportFallbackHeading, pyJoin "\n" (st.analyses.map mdListItem),
      by simp [reportFallback, String.append_assoc]⟩
  · intro a ha
    have hmem : mdListItem a ∈ st.analyses.map mdListItem := List.mem_map_of_mem _ ha
    obtain ⟨s, t, hst⟩ := pyJoin_mem "\n" (mdListItem a) (st.analyses.map mdListItem) hmem
    refine ⟨reportFallbackHeading ++ reportFallbackNote ++ s ++ "- ", t, ?_⟩
    have hsplit : ("- [" : String) = "- " ++ "[" := by decide
    rw [reportFallback, hst, mdListItem, hsplit]
    simp only [String.append_assoc]

/-- Witness for C3: two successful analyses and a failing synthesis call
produce the fallback article with both links. -/
theorem synthesis_fallback_witness :
    get_llm exEnv = .ok exCfg
      ∧ ({ exStateAB with analyses := [exAnalysisA, exAnalysisB] } : AgentState).analyses ≠ []
      ∧ (report_writer_node exEnv (.error "boom")
            { exStateAB with analyses := [exAnalysisA, exAnalysisB] }
          = .ok ({ exStateAB with
                    analyses := [exAnalysisA, exAnalysisB]
                    final_report := reportFallback [exAnalysisA, exAnalysisB] }, 1)
        ∧ strContains ("[" ++ exPaperA.title ++ "](" ++ exPaperA.link ++ ")")
            (reportFallback [exAnalysisA, exAnalysisB])
        ∧ strContains ("[" ++ exPaperB.title ++ "](" ++ exPaperB.link ++ ")")
            (reportFallback [exAnalysisA, exAnalysisB])) := by
  have h := synthesis_fallback exEnv exCfg "boom"
    { exStateAB with analyses := [exAnalysisA, exAnalysisB] } rfl (by decide)
  refine ⟨rfl, by decide, h.1, ?_, ?_⟩
  · exact h.2.2.2.2 exAnalysisA (by decide)
  · exact h.2.2.2.2 exAnalysisB (by decide)

/- ## Claim C10 -/

/-- Claim C10: the Analysis Stage's results reference each fetched paper
at most once even when the interesting-id list holds duplicate
identifiers, and the results' papers appear in the same relative order
as the fetched paper list (`asyncio.gather` keeps input order), i.e.
they form a sublist of the fetched list. -/
theorem analyst_order_and_dedup (env : Env) (H : Paper → Except Err (Option String))
    (L : Paper → Except Err String) (st : AgentState) :
    List.Sublist ((analyst_node env H L st).1.analyses.map PaperAnalysis.paper) st.papers
      ∧ ((st.papers.map Paper.arxiv_id).Nodup →
          ((analyst_node env H L st).1.analyses.map PaperAnalysis.paper).Nodup) := by
  by_cases hq : (st.papers.filter fun p => st.interesting_paper_ids.contains p.arxiv_id).isEmpty
  · have hnil : (analyst_node env H L st).1.analyses = [] := by
      simp only [analyst_node, hq, if_true]
    rw [hnil]
    exact ⟨List.nil_sublist _, fun _ => List.nodup_nil⟩
  · have hA := analyst_node_analyses env H L st hq
    rw [hA, analyses_map_paper]
    refine ⟨(List.filter_sublist _).trans (List.filter_sublist _), fun hnodup => ?_⟩
    have hp : st.papers.Nodup := List.Nodup.of_map _ hnodup
    exact ((List.filter_sublist _).trans (List.filter_sublist _)).nodup hp

/-- Witness for C10: a state with duplicated interesting ids still yields
each paper once, in fetch order. -/
theorem analyst_order_and_dedup_witness :
    List.Sublist ((analyst_node exEnv exHtmlOk exLlmOk exStateDup).1.analyses.map PaperAnalysis.paper)
        exStateDup.papers
      ∧ ((analyst_node exEnv exHtmlOk exLlmOk exStateDup).1.analyses.map PaperAnalysis.paper).Nodup
      ∧ ((analyst_node exEnv exHtmlOk exLlmOk exStateDup).1.analyses.map PaperAnalysis.paper)
          = [exPaperA, exPaperB] := by
  refine ⟨(analyst_order_and_dedup exEnv exHtmlOk exLlmOk exStateDup).1,
    (analyst_order_and_dedup exEnv exHtmlOk exLlmOk exStateDup).2 (by decide), by decide⟩

/- ## Claim C1 (corrected) -/

/-- Counterexample to C1 as stated: two qualifying papers where the
per-paper LLM call raises for exactly one of them yield two Analysis
Results, not one — the failing paper is kept with a placeholder
analysis, not dropped. -/
theorem analyst_partial_failure_counterexample :
    ((analyst_node exEnv exHtmlOk exLlmFailB exStateAB).1.analyses.map fun a => a.paper.arxiv_id)
        = ["2401.00001", "2401.00002"]
      ∧ (analyst_node exEnv exHtmlOk exLlmFailB exStateAB).1.analyses.length ≠ 1 := by
  decide

/-- Claim C1, amended: a per-paper analysis task that raises (an
exception escaping `analyze_single_paper`, e.g. from the HTML fetch) is
dropped: with N qualifying papers of which exactly one raises, the
Analysis Stage returns exactly N−1 results whose papers are exactly the
non-failing papers.  A failing per-paper LLM call, by contrast, is
caught inside `analyze_single_paper` and yields a placeholder result,
so all N papers stay in the result list. -/
theorem analyst_partial_failure (env : Env) (H : Paper → Except Err (Option String))
    (L : Paper → Except Err String) (st : AgentState) (cfg : LLMConfig) (b : Paper) (eb : Err)
    (hcfg : get_llm env = .ok cfg)
    (hnodup : (st.papers.map Paper.arxiv_id).Nodup) :
    (b ∈ st.papers.filter (fun p => st.interesting_paper_ids.contains p.arxiv_id) →
      H b = .error eb →
      (∀ p ∈ st.papers.filter (fun p => st.interesting_paper_ids.contains p.arxiv_id),
          p ≠ b → ∃ h, H p = .ok h) →
      ((analyst_node env H L st).1.analyses.map PaperAnalysis.paper
          = (st.papers.filter fun p => st.interesting_paper_ids.contains p.arxiv_id).filter
              (fun p => p != b)
        ∧ (analyst_node env H L st).1.analyses.length
            = (st.papers.filter fun p => st.interesting_paper_ids.contains p.arxiv_id).length - 1))
    ∧ ((∀ p ∈ st.papers.filter (fun p => st.interesting_paper_ids.contains p.arxiv_id),
          ∃ h, H p = .ok h) →
        (analyst_node env H L st).1.analyses.map PaperAnalysis.paper
          = st.papers.filter fun p => st.interesting_paper_ids.contains p.arxiv_id) := by
  have hqnodup : (st.papers.filter fun p => st.interesting_paper_ids.contains p.arxiv_id).Nodup :=
    (List.Nodup.of_map _ hnodup).filter _
  constructor
  · intro hbq hHb hok
    have hqne : ¬ (st.papers.filter fun p => st.interesting_paper_ids.contains p.arxiv_id).isEmpty := by
      cases hq : st.papers.filter fun p => st.interesting_paper_ids.contains p.arxiv_id with
      | nil => rw [hq] at hbq; cases hbq
      | cons x xs => simp
    have hA := analyst_node_analyses env H L st hqne
    have hmap : (analyst_node env H L st).1.analyses.map PaperAnalysis.paper
        = (st.papers.filter fun p => st.interesting_paper_ids.contains p.arxiv_id).filter
            fun p => (analyze_single_paper env (H p) (L p) p).1.toOption.isSome := by
      rw [hA, analyses_map_paper]
    have hcong : (st.papers.filter fun p => st.interesting_paper_ids.contains p.arxiv_id).filter
          (fun p => (analyze_single_paper env (H p) (L p) p).1.toOption.isSome)
        = (st.papers.filter fun p => st.interesting_paper_ids.contains p.arxiv_id).filter
            (fun p => p != b) := by
      apply List.filter_congr
      intro p hp
      by_cases hpb : p = b
      · subst hpb
        simp [analyze_single_paper, hHb, Except.toOption]
      · obtain ⟨hh, hH⟩ := hok p hp hpb
        have hone : (analyze_single_paper env (H p) (L p) p).1.toOption.isSome = true := by
          cases hL : L p with
          | error e2 => simp [analyze_single_paper, hH, hcfg, hL, Except.toOption]
          | ok c => simp [analyze_single_paper, hH, hcfg, hL, Except.toOption]
        rw [hone]
        simp [hpb]
    refine ⟨by rw [hmap, hcong], ?_⟩
    have hlen : (analyst_node env H L st).1.analyses.length
        = ((analyst_node env H L st).1.analyses.map PaperAnalysis.paper).length :=
      (List.length_map _ _).symm
    rw [hlen, hmap, hcong, ← List.Nodup.erase_eq_filter hqnodup b]
    exact List.length_erase_of_mem hbq
  · intro hall
    by_cases hqe : (st.papers.filter fun p => st.interesting_paper_ids.contains p.arxiv_id).isEmpty
    · have hq0 : (st.papers.filter fun p => st.interesting_paper_ids.contains p.arxiv_id) = [] := by
        simpa using hqe
      have hnil : (analyst_node env H L st).1.analyses = [] := by
        simp only [analyst_node, hqe, if_true]
      rw [hnil, hq0]
      rfl
    · rw [analyst_node_analyses env H L st hqe, analyses_map_paper]
      apply List.filter_eq_self.2
      intro p hp
      obtain ⟨hh, hH⟩ := hall p hp
      cases hL : L p with
      | error e2 => simp [analyze_single_paper, hH, hcfg, hL, Except.toOption]
      | ok c => simp [analyze_single_paper, hH, hcfg, hL, Except.toOption]

/-- Witness for C1 (amended): a raising HTML-fetch task drops only its
own paper; a raising per-paper LLM call keeps both papers. -/
theorem analyst_partial_failure_witness :
    get_llm exEnv = .ok exCfg
      ∧ (exStateAB.papers.map Paper.arxiv_id).Nodup
      ∧ ((analyst_node exEnv exHtmlFailB exLlmOk exStateAB).1.analyses.map PaperAnalysis.paper
            = [exPaperA]
          ∧ (analyst_node exEnv exHtmlFailB exLlmOk exStateAB).1.analyses.length = 1)
      ∧ (analyst_node exEnv exHtmlOk exLlmFailB exStateAB).1.analyses.map PaperAnalysis.paper
          = [exPaperA, exPaperB] := by
  have hall : ∀ p ∈ exStateAB.papers.filter
      (fun p => exStateAB.interesting_paper_ids.contains p.arxiv_id),
      p ≠ exPaperB → ∃ h, exHtmlFailB p = .ok h := by
    intro p hp hne
    have hflt : (exStateAB.papers.filter
        fun p => exStateAB.interesting_paper_ids.contains p.arxiv_id) = [exPaperA, exPaperB] := by
      decide
    rw [hflt] at hp
    rcases List.mem_cons.1 hp with h1 | h2
    · subst h1
      exact ⟨none, by decide⟩
    · rcases List.mem_cons.1 h2 with h3 | h4
      · exact absurd h3 hne
      · cases h4
  have h := (analyst_partial_failure exEnv exHtmlFailB exLlmOk exStateAB exCfg exPaperB "boom"
    rfl (by decide)).1 (by decide) (by decide) hall
  have h2 := (analyst_partial_failure exEnv exHtmlOk exLlmFailB exStateAB exCfg exPaperB "unused"
    rfl (by decide)).2 (fun p hp => ⟨none, rfl⟩)
  refine ⟨rfl, by decide, ⟨?_, ?_⟩, ?_⟩
  · rw [h.1]; decide
  · rw [h.2]; decide
  · rw [h2]; decide

/- ## Claim C6 (corrected) -/

/-- Counterexample to C6 as stated: with the credential missing and no
papers fetched, the run completes successfully with exit code 0 — the
missing credential is never surfaced, neither at process start nor
later. -/
theorem credential_check_counterexample :
    get_llm exEnvNone = .error "OPENROUTER_API_KEY environment variable is required"
      ∧ run_agent exEnvNone [] (.ok "resp") exHtmlOk exLlmOk (.ok "article") = .ok noPapersReport
      ∧ cli_main exEnvNone [] (.ok "resp") exHtmlOk exLlmOk (.ok "article") = 0 := by
  decide

/-- Claim C6, amended: a missing credential is not checked at process
start; `get_llm` raises on first use inside a stage.  With a non-empty
fetched paper set the Selection Stage raises the error, which propagates
to a CLI exit code of 1; with zero fetched papers the run completes
successfully (exit code 0) and the missing credential is never
surfaced. -/
theorem credential_failure_deferred (env : Env) (fetched : List Paper)
    (coordResp : Except Err String) (H : Paper → Except Err (Option String))
    (L : Paper → Except Err String) (writerResp : Except Err String) (msg : Err)
    (hmiss : get_llm env = .error msg) :
    (fetched ≠ [] →
      run_agent env fetched coordResp H L writerResp = .error msg
        ∧ cli_main env fetched coordResp H L writerResp = 1)
      ∧ (fetched = [] →
          run_agent env fetched coordResp H L writerResp = .ok noPapersReport
            ∧ cli_main env fetched coordResp H L writerResp = 0) := by
  constructor
  · intro hne
    have hb : fetched.isEmpty = false := by
      cases fetched with
      | nil => cases hne rfl
      | cons a l => rfl
    have hrun : run_agent env fetched coordResp H L writerResp = .error msg := by
      unfold run_agent coordinator_node
      rw [hb]
      simp [hmiss]
    refine ⟨hrun, ?_⟩
    unfold cli_main
    rw [hrun]
  · intro he
    subst he
    have hrun : run_agent env [] coordResp H L writerResp = .ok noPapersReport := rfl
    refine ⟨hrun, ?_⟩
    unfold cli_main
    rw [hrun]

/-- Witness for C6 (amended): with the credential missing and one fetched
paper, the run fails from within the Selection Stage and the CLI exits
with code 1. -/
theorem credential_failure_deferred_witness :
    get_llm exEnvNone = .error "OPENROUTER_API_KEY environment variable is required"
      ∧ ([exPaperA] : List Paper) ≠ []
      ∧ run_agent exEnvNone [exPaperA] (.ok "resp") exHtmlOk exLlmOk (.ok "article")
          = .error "OPENROUTER_API_KEY environment variable is required"
      ∧ cli_main exEnvNone [exPaperA] (.ok "resp") exHtmlOk exLlmOk (.ok "article") = 1 := by
  have h := (credential_failure_deferred exEnvNone [exPaperA] (.ok "resp") exHtmlOk exLlmOk
    (.ok "article") "OPENROUTER_API_KEY environment variable is required" rfl).1 (by decide)
  exact ⟨rfl, by decide, h.1, h.2⟩


/- ## Claim C7 -/

/-- Claim C7: for every report text whose first qualifying content line
(non-blank, not a heading, not a bold line, not an LLM preamble line),
once stripped, is longer than 200 characters, the computed excerpt is
exactly the first 200 characters of that line followed by "...", hence
exactly 203 characters ending with an ellipsis. -/
theorem excerpt_truncation (md : String → String) (name text line : String)
    (hfind : (splitLines text).find? excerptQualifies = some line)
    (hlong : 200 < (pyStrip line).length) :
    (parse_report md name text).excerpt = strTake (pyStrip line) 200 ++ "..."
      ∧ (parse_report md name text).excerpt.length = 203 := by
  have hexc : (parse_report md name text).excerpt = strTake (pyStrip line) 200 ++ "..." := by
    simp only [parse_report, hfind]
    rw [if_pos hlong]
  refine ⟨hexc, ?_⟩
  rw [hexc, String.length_append]
  have h1 : (strTake (pyStrip line) 200).length = 200 := by
    show ((pyStrip line).data.take 200).length = 200
    rw [List.length_take]
    have h0 : (pyStrip line).length = (pyStrip line).data.length := rfl
    omega
  have h2 : ("..." : String).length = 3 := by decide
  omega

set_option maxRecDepth 8192 in
/-- Witness for C7: a 300-character first content line yields a
203-character excerpt ending in an ellipsis. -/
theorem excerpt_truncation_witness :
    (splitLines exLongText).find? excerptQualifies = some exLongLine
      ∧ 200 < (pyStrip exLongLine).length
      ∧ (parse_report exMd "report-2026-01-15.md" exLongText).excerpt
          = strTake (pyStrip exLongLine) 200 ++ "..."
      ∧ (parse_report exMd "report-2026-01-15.md" exLongText).excerpt.length = 203 := by
  have h := excerpt_truncation exMd "report-2026-01-15.md" exLongText exLongLine
    (by decide) (by decide)
  exact ⟨by decide, by decide, h.1, h.2⟩

/- ## Claim C8 -/

/-- Claim C8: the extracted title is the content of the first markdown
heading line when one exists, otherwise the content of the first
bold-emphasis-only line, otherwise the synthesized default embedding
the date; and a report beginning with the preamble line
"Here's my engaging article:" followed by a "# Actual Title" heading
yields the title "Actual Title" and an excerpt that does not contain
the preamble text. -/
theorem title_extraction :
    (∀ (md : String → String) (name text : String),
      (∀ t, (splitLines text).findSome? headingContent = some t →
        (parse_report md name text).title = t)
      ∧ ((splitLines text).findSome? headingContent = none →
          ∀ t, (splitLines text).findSome? boldContent = some t →
            (parse_report md name text).title = t)
      ∧ ((splitLines text).findSome? headingContent = none →
          (splitLines text).findSome? boldContent = none →
          (parse_report md name text).title
            = "Report " ++ (parse_report md name text).date_str))
    ∧ ((parse_report exMd "report-2026-01-15.md" exPreambleText).title = "Actual Title"
        ∧ (parse_report exMd "report-2026-01-15.md" exPreambleText).excerpt = "Content."
        ∧ containsSub "Here's my".data
            (parse_report exMd "report-2026-01-15.md" exPreambleText).excerpt.data = false) := by
  constructor
  · intro md name text
    refine ⟨?_, ?_, ?_⟩
    · intro t ht
      simp only [parse_report, ht]
    · intro hn t ht
      simp only [parse_report, hn, ht]
    · intro hn hb
      simp only [parse_report, hn, hb]
  · exact ⟨by decide, by decide, by decide⟩

/-- Witness for C8: the heading case and the synthesized-default case at
concrete inputs. -/
theorem title_extraction_witness :
    ((splitLines "# Great Title\n\nBody").findSome? headingContent = some "Great Title"
      ∧ (parse_report exMd "report-2026-01-15.md" "# Great Title\n\nBody").title = "Great Title")
    ∧ ((splitLines "No heading, just content.").findSome? headingContent = none
      ∧ (splitLines "No heading, just content.").findSome? boldContent = none
      ∧ (parse_report exMd "report-2026-01-15.md" "No heading, just content.").title
          = "Report " ++ (parse_report exMd "report-2026-01-15.md" "No heading, just content.").date_str) := by
  refine ⟨⟨by decide, ?_⟩, by decide, by decide, ?_⟩
  · exact (title_extraction.1 exMd "report-2026-01-15.md" "# Great Title\n\nBody").1
      "Great Title" (by decide)
  · exact (title_extraction.1 exMd "report-2026-01-15.md" "No heading, just content.").2.2
      (by decide) (by decide)


/- ## Lemmas for the site builder ordering (claim C9) -/

theorem listLt_append_left (l a b : List Char) (h : a < b) : l ++ a < l ++ b := by
  induction l with
  | nil => simpa using h
  | cons c cl ih => exact List.Lex.cons ih

theorem listLt_append_of_length_eq :
    ∀ {a b : List Char} (x y : List Char), a.length = b.length → a < b → a ++ x < b ++ y := by
  intro a
  induction a with
  | nil =>
    intro b x y hlen h
    cases b with
    | nil => cases h
    | cons d ds => simp at hlen
  | cons c cs ih =>
    intro b x y hlen h
    cases b with
    | nil => simp at hlen
    | cons d ds =>
      cases h with
      | cons h3 =>
        simp only [List.length_cons] at hlen
        exact List.Lex.cons (ih x y (by omega) h3)
      | rel hr => exact List.Lex.rel hr

theorem strLt_of_dataLt {a b : String} (h : a.data < b.data) : a < b := by
  rw [String.lt_iff_toList_lt]
  exact h

theorem fileLt (d1 d2 : String) (hlen : d1.data.length = d2.data.length)
    (h : d1.data < d2.data) :
    ("report-" ++ d1 ++ ".md" : String) < "report-" ++ d2 ++ ".md" := by
  apply strLt_of_dataLt
  show ("report-".data ++ d1.data) ++ ".md".data < ("report-".data ++ d2.data) ++ ".md".data
  rw [List.append_assoc, List.append_assoc]
  exact listLt_append_left _ _ _ (listLt_append_of_length_eq _ _ hlen h)

theorem isDateLike_shape (d : String) (h : isDateLike d = true) :
    ∃ y1 y2 y3 y4 m1 m2 dd1 dd2 : Char,
      d.data = [y1, y2, y3, y4, '-', m1, m2, '-', dd1, dd2]
        ∧ y1.isDigit = true ∧ y2.isDigit = true ∧ y3.isDigit = true ∧ y4.isDigit = true
        ∧ m1.isDigit = true ∧ m2.isDigit = true ∧ dd1.isDigit = true ∧ dd2.isDigit = true := by
  unfold isDateLike at h
  split at h
  next y1 y2 y3 y4 c1 m1 m2 c2 dd1 dd2 heq =>
    simp only [Bool.and_eq_true, beq_iff_eq] at h
    obtain ⟨⟨⟨⟨⟨⟨⟨⟨⟨hy1, hy2⟩, hy3⟩, hy4⟩, hc1⟩, hm1⟩, hm2⟩, hc2⟩, hd1⟩, hd2⟩ := h
    subst hc1
    subst hc2
    exact ⟨y1, y2, y3, y4, m1, m2, dd1, dd2, heq, hy1, hy2, hy3, hy4, hm1, hm2, hd1, hd2⟩
  next => cases h

theorem isDateLike_len (d : String) (h : isDateLike d = true) : d.data.length = 10 := by
  obtain ⟨y1, y2, y3, y4, m1, m2, dd1, dd2, heq, -⟩ := isDateLike_shape d h
  rw [heq]
  rfl

theorem findDate_report (d : String) (h : isDateLike d = true) :
    findDate ("report-" ++ d ++ ".md").data = some d.data := by
  obtain ⟨y1, y2, y3, y4, m1, m2, dd1, dd2, heq, hy1, hy2, hy3, hy4, hm1, hm2, hd1, hd2⟩ :=
    isDateLike_shape d h
  have hdata : ("report-" ++ d ++ ".md").data
      = 'r' :: 'e' :: 'p' :: 'o' :: 'r' :: 't' :: '-' ::
        (y1 :: y2 :: y3 :: y4 :: '-' :: m1 :: m2 :: '-' :: dd1 :: dd2 :: ['.', 'm', 'd']) := by
    show ("report-".data ++ d.data) ++ ".md".data = _
    rw [heq]
    rfl
  have hr : ('r'.isDigit) = false := by decide
  have he : ('e'.isDigit) = false := by decide
  have hp : ('p'.isDigit) = false := by decide
  have ho : ('o'.isDigit) = false := by decide
  have ht : ('t'.isDigit) = false := by decide
  have hdash : ('-'.isDigit) = false := by decide
  rw [hdata, heq]
  simp [findDate, dateShapeAt, hr, he, hp, ho, ht, hdash, hy1, hy2, hy3, hy4, hm1, hm2, hd1, hd2]

theorem glob_report_md (x : String) : matchesReportGlob ("report-" ++ x ++ ".md") = true := by
  unfold matchesReportGlob
  rw [Bool.and_eq_true]
  constructor
  · rw [List.isPrefixOf_iff_prefix]
    exact ⟨x.data ++ ".md".data, by simp [strData_append, List.append_assoc]⟩
  · rw [List.isSuffixOf_iff_suffix]
    exact ⟨"report-".data ++ x.data, by simp [strData_append, List.append_assoc]⟩

theorem pyStem_md (x : String) : pyStem (x ++ ".md") = x := by
  have hdata : (x ++ ".md").data.reverse = 'd' :: 'm' :: '.' :: x.data.reverse := by
    show (x.data ++ ".md".data).reverse = _
    rw [List.reverse_append]
    rfl
  unfold pyStem
  rw [hdata]
  simp [List.dropWhile]

theorem nameGe_iff (a b : String) : nameGe a b ↔ b ≤ a := by
  unfold nameGe
  have hiff : (a < b) ↔ a.data < b.data := String.lt_iff_toList_lt
  rw [← hiff, not_lt]

theorem insertionSort_nameGe_three (f1 f2 f3 : String) (h12 : f1 < f2) (h23 : f2 < f3)
    (l : List String) (hperm : l.Perm [f1, f2, f3]) :
    List.insertionSort nameGe l = [f3, f2, f1] := by
  haveI htot : IsTotal String nameGe := ⟨fun a b => by
    rw [nameGe_iff, nameGe_iff]
    exact le_total b a⟩
  haveI htr : IsTrans String nameGe := ⟨fun a b c hab hbc => by
    rw [nameGe_iff] at hab hbc ⊢
    exact le_trans hbc hab⟩
  haveI hanti : IsAntisymm String nameGe := ⟨fun a b hab hba => by
    rw [nameGe_iff] at hab hba
    exact le_antisymm hba hab⟩
  apply List.eq_of_perm_of_sorted (r := nameGe)
  · exact (List.perm_insertionSort nameGe l).trans
      (hperm.trans (List.reverse_perm [f1, f2, f3]).symm)
  · exact List.sorted_insertionSort nameGe l
  · have hge32 : nameGe f3 f2 := (nameGe_iff f3 f2).2 (le_of_lt h23)
    have hge31 : nameGe f3 f1 := (nameGe_iff f3 f1).2 (le_of_lt (lt_trans h12 h23))
    have hge21 : nameGe f2 f1 := (nameGe_iff f2 f1).2 (le_of_lt h12)
    rw [List.sorted_cons]
    refine ⟨?_, ?_⟩
    · intro b hb
      rcases List.mem_cons.1 hb with rfl | hb2
      · exact hge32
      · rcases List.mem_singleton.1 hb2 with rfl
        exact hge31
    · rw [List.sorted_cons]
      refine ⟨?_, ?_⟩
      · intro b hb
        rcases List.mem_singleton.1 hb with rfl
        exact hge21
      · exact List.sorted_singleton f1

theorem filter_glob_three (d1 d2 d3 : String) (dir : List String)
    (hdir : dir.Perm ["report-" ++ d1 ++ ".md", "report-" ++ d2 ++ ".md",
      "report-" ++ d3 ++ ".md"]) :
    (dir.filter matchesReportGlob).Perm
      ["report-" ++ d1 ++ ".md", "report-" ++ d2 ++ ".md", "report-" ++ d3 ++ ".md"] := by
  have hf := hdir.filter matchesReportGlob
  have heq : (["report-" ++ d1 ++ ".md", "report-" ++ d2 ++ ".md",
      "report-" ++ d3 ++ ".md"].filter matchesReportGlob)
      = ["report-" ++ d1 ++ ".md", "report-" ++ d2 ++ ".md", "report-" ++ d3 ++ ".md"] := by
    simp [List.filter_cons, glob_report_md]
  rw [heq] at hf
  exact hf


/- ## Claim C9 -/

/-- Claim C9: for a directory holding three report artifacts with
distinct well-formed dates D1 < D2 < D3 in their file names, the
generated page for D2 carries an older-navigation link to D1's slug and
a newer-navigation link to D3's slug, the page for D1 carries no older
link, and the page for D3 carries no newer link; the two anchors occur
verbatim in D2's navigation HTML. -/
theorem nav_links (md content : String → String) (d1 d2 d3 : String) (dir : List String)
    (h1 : isDateLike d1 = true) (h2 : isDateLike d2 = true) (h3 : isDateLike d3 = true)
    (h12 : d1.data < d2.data) (h23 : d2.data < d3.data)
    (hdir : dir.Perm ["report-" ++ d1 ++ ".md", "report-" ++ d2 ++ ".md",
      "report-" ++ d3 ++ ".md"]) :
    ∃ p3 p2 p1 : Page,
      build_site md dir content = [p3, p2, p1]
        ∧ p3.slug = "report-" ++ d3
        ∧ p2.slug = "report-" ++ d2
        ∧ p1.slug = "report-" ++ d1
        ∧ p2.nav_older = some ("report-" ++ d1)
        ∧ p2.nav_newer = some ("report-" ++ d3)
        ∧ p1.nav_older = none
        ∧ p3.nav_newer = none
        ∧ strContains ("<a class=\"nav-older\" href=\"" ++ ("report-" ++ d1) ++ ".html\">")
            p2.nav_html
        ∧ strContains ("<a class=\"nav-newer\" href=\"" ++ ("report-" ++ d3) ++ ".html\">")
            p2.nav_html := by
  have hl1 := isDateLike_len d1 h1
  have hl2 := isDateLike_len d2 h2
  have hl3 := isDateLike_len d3 h3
  have hf12 := fileLt d1 d2 (by omega) h12
  have hf23 := fileLt d2 d3 (by omega) h23
  have hsort := insertionSort_nameGe_three _ _ _ hf12 hf23 (dir.filter matchesReportGlob)
    (filter_glob_three d1 d2 d3 dir hdir)
  set r1 := parse_report md ("report-" ++ d1 ++ ".md") (content ("report-" ++ d1 ++ ".md"))
    with hr1
  set r2 := parse_report md ("report-" ++ d2 ++ ".md") (content ("report-" ++ d2 ++ ".md"))
    with hr2
  set r3 := parse_report md ("report-" ++ d3 ++ ".md") (content ("report-" ++ d3 ++ ".md"))
    with hr3
  have hslug1 : r1.slug = "report-" ++ d1 := by
    rw [hr1]
    simp only [parse_report]
    exact pyStem_md ("report-" ++ d1)
  have hslug2 : r2.slug = "report-" ++ d2 := by
    rw [hr2]
    simp only [parse_report]
    exact pyStem_md ("report-" ++ d2)
  have hslug3 : r3.slug = "report-" ++ d3 := by
    rw [hr3]
    simp only [parse_report]
    exact pyStem_md ("report-" ++ d3)
  have hpages : build_site md dir content
      = [mkPage none r3 (some r2), mkPage (some r3) r2 (some r1), mkPage (some r2) r1 none] := by
    simp only [build_site]
    rw [hsort]
    simp only [List.map_cons, List.map_nil, buildPages, List.head?]
  refine ⟨mkPage none r3 (some r2), mkPage (some r3) r2 (some r1), mkPage (some r2) r1 none,
    hpages, ?_, ?_, ?_, ?_, ?_, ?_, ?_, ?_, ?_⟩
  · exact hslug3
  · exact hslug2
  · exact hslug1
  · show some r1.slug = some ("report-" ++ d1)
    rw [hslug1]
  · show some r3.slug = some ("report-" ++ d3)
    rw [hslug3]
  · rfl
  · rfl
  · refine ⟨"<div class=\"article-nav\">",
      "&larr; " ++ strTake r1.title 50 ++ "</a>" ++ (navAnchorNewer r3 ++ "</div>"), ?_⟩
    show navHtmlOf (some r1) (some r3) = _
    simp only [navHtmlOf, navAnchorOlder]
    rw [hslug1]
    rw [show (".html\">&larr; " : String) = ".html\">" ++ "&larr; " from by decide]
    simp only [String.append_assoc]
  · refine ⟨"<div class=\"article-nav\">" ++ navAnchorOlder r1,
      strTake r3.title 50 ++ " &rarr;</a>" ++ "</div>", ?_⟩
    show navHtmlOf (some r1) (some r3) = _
    simp only [navHtmlOf, navAnchorNewer]
    rw [hslug3]
    simp only [String.append_assoc]

/-- Witness for C9: three concrete dated artifacts, listed out of order,
produce cross-linked pages with the expected navigation. -/
theorem nav_links_witness :
    isDateLike "2026-01-10" = true ∧ isDateLike "2026-01-11" = true
      ∧ isDateLike "2026-01-12" = true
      ∧ ("2026-01-10" : String).data < ("2026-01-11" : String).data
      ∧ ("2026-01-11" : String).data < ("2026-01-12" : String).data
      ∧ (["report-2026-01-11.md", "report-2026-01-10.md", "report-2026-01-12.md"] :
          List String).Perm ["report-" ++ "2026-01-10" ++ ".md", "report-" ++ "2026-01-11" ++ ".md",
            "report-" ++ "2026-01-12" ++ ".md"]
      ∧ ∃ p3 p2 p1 : Page,
          build_site exMd ["report-2026-01-11.md", "report-2026-01-10.md", "report-2026-01-12.md"]
              (fun _ => "# T\n\nBody") = [p3, p2, p1]
            ∧ p3.slug = "report-" ++ "2026-01-12"
            ∧ p2.slug = "report-" ++ "2026-01-11"
            ∧ p1.slug = "report-" ++ "2026-01-10"
            ∧ p2.nav_older = some ("report-" ++ "2026-01-10")
            ∧ p2.nav_newer = some ("report-" ++ "2026-01-12")
            ∧ p1.nav_older = none
            ∧ p3.nav_newer = none
            ∧ strContains ("<a class=\"nav-older\" href=\"" ++ ("report-" ++ "2026-01-10")
                ++ ".html\">") p2.nav_html
            ∧ strContains ("<a class=\"nav-newer\" href=\"" ++ ("report-" ++ "2026-01-12")
                ++ ".html\">") p2.nav_html := by
  refine ⟨by decide, by decide, by decide, by decide, by decide, by decide, ?_⟩
  exact nav_links exMd (fun _ => "# T\n\nBody") "2026-01-10" "2026-01-11" "2026-01-12"
    ["report-2026-01-11.md", "report-2026-01-10.md", "report-2026-01-12.md"]
    (by decide) (by decide) (by decide) (by decide) (by decide) (by decide)

end PreprintAlert
